import Mathlib

/-!
# Verification of the dependency evaluation and repair engine of genconf.py

Shallow embedding of `src/genconf.py` (functions `user_value`,
`expr_user_value`, `dep_satisfied`, `deps_met`, `filter_unmet_deps`,
`try_fix_deps`) together with the small slice of the schema-database
interface (the kconfiglib symbol model) that those functions read.

Modelling conventions:
* Symbols are identified by natural-number ids; the static part of a
  symbol (name, types, constancy flag, its resolved tri-value absent a
  user assignment, its string value, its direct-dependency expression)
  lives in an environment `Env`; the mutable part — the user-assigned
  tri-value written by `set_value` — is the `State`.
* `genconf.user_value(sym)` returns `sym.user_value` when set, else
  `sym.tri_value`.  The repair engine only ever calls `set_value` with a
  tri-value integer (`user_value(src)` or a computed 0/1/2), so the model
  records user assignments as `Option Nat` and string scalars are static:
  nothing in the repair engine writes a string value.
* The schema database's string-numeric conversion utility
  (`K._sym_to_num`) and lexicographic comparison (`K._strcmp`) are
  external collaborators (spec section 6); they are modelled from the
  spec: bool/tristate symbols compare by their effective tri-value,
  other symbols by parsing their string value as a decimal integer,
  falling back to lexicographic comparison when parsing fails.
* The `while symbols:` loop of `try_fix_deps` need not terminate in
  general, so the model takes an explicit fuel parameter; running out of
  fuel is a distinguished outcome that never occurs in the runs proved
  below.  Python's `exit(1)` and an uncaught `KeyError` are modelled as
  the `unsupported` and `keyError` outcomes.
-/

namespace GenConf

/-- Symbol types of the schema language (kconfiglib `BOOL`, `TRISTATE`,
`STRING`, `INT`, `HEX`, `UNKNOWN`). -/
inductive SymType where
  | BOOL
  | TRISTATE
  | STRING
  | INT
  | HEX
  | UNKNOWN
deriving DecidableEq, Repr

/-- Relational operators of dependency expressions. -/
inductive RelOp where
  | EQUAL
  | UNEQUAL
  | LESS
  | LESS_EQUAL
  | GREATER
  | GREATER_EQUAL
deriving DecidableEq, Repr

/-- Dependency expression trees: a Python expression is either a `Symbol`
leaf or a tuple `(AND,l,r)`, `(OR,l,r)`, `(NOT,e)`, `(rel,l,r)`; relation
operands are always symbols (invariant stated in the spec, section 3). -/
inductive Expr where
  | sym (s : Nat)
  | and (e1 e2 : Expr)
  | or (e1 e2 : Expr)
  | not (e : Expr)
  | rel (op : RelOp) (s1 s2 : Nat)
deriving DecidableEq, Repr

/-- Static data of one symbol.  `type` is the possibly-demoted runtime
type (`sym.type`), `origType` the declared type (`sym.orig_type`);
`triValue` is the library-resolved tri-value used when no user value is
assigned; `strValue` is the string scalar (static under repair, which
only writes tri-values). -/
structure Symbol where
  name : String
  type : SymType
  origType : SymType
  isConstant : Bool
  triValue : Nat
  strValue : String
  directDep : Expr
deriving Repr

/-- Static symbol table. -/
def Env := Nat → Symbol

/-- Mutable state: the user-assigned tri-values (`sym.user_value`). -/
def State := Nat → Option Nat

/-- `set_value`: record a user assignment. -/
def setValue (σ : State) (s : Nat) (v : Nat) : State :=
  fun i => if i = s then some v else σ i

/-- genconf `user_value(sym)`: the user value if set, else the resolved
tri-value. -/
def user_value (env : Env) (σ : State) (s : Nat) : Nat :=
  (σ s).getD (env s).triValue

/-- Lexicographic comparison of character lists, sign only. -/
def strcmpAux : List Char → List Char → Int
  | [], [] => 0
  | [], _ :: _ => -1
  | _ :: _, [] => 1
  | a :: as, b :: bs =>
      if a.val.toNat < b.val.toNat then -1
      else if b.val.toNat < a.val.toNat then 1
      else strcmpAux as bs

/-- Lexicographic comparison, sign only (models `K._strcmp`). -/
def strcmp (a b : String) : Int :=
  strcmpAux a.data b.data

/-- Decimal digit value of a character, if any. -/
def decDigit (c : Char) : Option Nat :=
  if 48 ≤ c.val.toNat ∧ c.val.toNat ≤ 57 then some (c.val.toNat - 48) else none

/-- Accumulate decimal digits; `none` at the first non-digit. -/
def parseDigitsAux : List Char → Nat → Option Nat
  | [], acc => some acc
  | c :: cs, acc =>
      match decDigit c with
      | some d => parseDigitsAux cs (acc * 10 + d)
      | none => none

/-- Parse a non-empty all-digit list. -/
def parseDigits (l : List Char) : Option Nat :=
  match l with
  | [] => none
  | _ => parseDigitsAux l 0

/-- Parse an optional-sign decimal integer, `none` when unparsable. -/
def parseInt (s : String) : Option Int :=
  match s.data with
  | '-' :: ds => (parseDigits ds).map fun n => -(n : Int)
  | ds => (parseDigits ds).map fun n => (n : Int)

/-- Modelled from the spec: the schema database's string-numeric
conversion utility (`K._sym_to_num`, spec section 6): bool/tristate
symbols yield their effective tri-value, other symbols parse their
string value as an integer, `none` when unparsable (the source raises
`ValueError` there and falls back to `strcmp`). -/
def symToNum (env : Env) (σ : State) (s : Nat) : Option Int :=
  if (env s).origType = SymType.BOOL ∨ (env s).origType = SymType.TRISTATE then
    some (user_value env σ s)
  else
    parseInt (env s).strValue

/-- Comparison of two relation operands: both string-typed compare
lexicographically; otherwise compare numerically, falling back to the
lexicographic comparison when a side does not parse. -/
def relComp (env : Env) (σ : State) (s1 s2 : Nat) : Int :=
  if (env s1).origType = SymType.STRING ∧ (env s2).origType = SymType.STRING then
    strcmp (env s1).strValue (env s2).strValue
  else
    match symToNum env σ s1, symToNum env σ s2 with
    | some a, some b => a - b
    | _, _ => strcmp (env s1).strValue (env s2).strValue

/-- Map a comparison sign through a relational operator. -/
def relTest (op : RelOp) (comp : Int) : Bool :=
  match op with
  | RelOp.EQUAL => decide (comp = 0)
  | RelOp.UNEQUAL => decide (comp ≠ 0)
  | RelOp.LESS => decide (comp < 0)
  | RelOp.LESS_EQUAL => decide (comp ≤ 0)
  | RelOp.GREATER => decide (0 < comp)
  | RelOp.GREATER_EQUAL => decide (0 ≤ comp)

/-- Value of a relation leaf: `2 * bool`, hence never `MODULE`. -/
def relValue (env : Env) (σ : State) (op : RelOp) (s1 s2 : Nat) : Nat :=
  if relTest op (relComp env σ s1 s2) then 2 else 0

/-- genconf `expr_user_value`: tri-value of a dependency expression,
with the source's short-circuiting (`0 if not v1 else min ...`,
`2 if v1 == 2 else max ...`). -/
def expr_user_value (env : Env) : Expr → State → Nat
  | Expr.sym s, σ => user_value env σ s
  | Expr.and e1 e2, σ =>
      let v1 := expr_user_value env e1 σ
      if v1 = 0 then 0 else min v1 (expr_user_value env e2 σ)
  | Expr.or e1 e2, σ =>
      let v1 := expr_user_value env e1 σ
      if v1 = 2 then 2 else max v1 (expr_user_value env e2 σ)
  | Expr.not e, σ => 2 - expr_user_value env e σ
  | Expr.rel op s1 s2, σ => relValue env σ op s1 s2

/-- Instrumented evaluator: same control flow as `expr_user_value` but
additionally counts the expression nodes actually evaluated, so that
short-circuiting (the second operand not being evaluated) is observable. -/
def expr_user_value_count (env : Env) : Expr → State → Nat × Nat
  | Expr.sym s, σ => (user_value env σ s, 1)
  | Expr.and e1 e2, σ =>
      let r1 := expr_user_value_count env e1 σ
      if r1.1 = 0 then (0, r1.2 + 1)
      else
        let r2 := expr_user_value_count env e2 σ
        (min r1.1 r2.1, r1.2 + r2.2 + 1)
  | Expr.or e1 e2, σ =>
      let r1 := expr_user_value_count env e1 σ
      if r1.1 = 2 then (2, r1.2 + 1)
      else
        let r2 := expr_user_value_count env e2 σ
        (max r1.1 r2.1, r1.2 + r2.2 + 1)
  | Expr.not e, σ =>
      let r := expr_user_value_count env e σ
      (2 - r.1, r.2 + 1)
  | Expr.rel op s1 s2, σ => (relValue env σ op s1 s2, 1)

/-- genconf `dep_satisfied(sym, dep)`. -/
def dep_satisfied (env : Env) (σ : State) (s d : Nat) : Bool :=
  if (env s).type = SymType.BOOL then
    decide (user_value env σ s = 0 ∨ user_value env σ d ≠ 0)
  else
    decide (user_value env σ s ≤ user_value env σ d)

/-- genconf `deps_met(sym)`. -/
def deps_met (env : Env) (s : Nat) (σ : State) : Bool :=
  let v := user_value env σ s
  if 0 < v then
    if (env s).type = SymType.BOOL then
      decide (v = 0 ∨ expr_user_value env (env s).directDep σ ≠ 0)
    else
      decide (v ≤ expr_user_value env (env s).directDep σ)
  else
    true

/-- `K.split_expr(e, K.AND)`: top-level AND-conjuncts. -/
def split_expr : Expr → List Expr
  | Expr.and e1 e2 => split_expr e1 ++ split_expr e2
  | e => [e]

/-- genconf `filter_unmet_deps(symbols)`. -/
def filter_unmet_deps (env : Env) (σ : State) (syms : List Nat) : List Nat :=
  syms.filter fun s =>
    (decide ((env s).origType = SymType.BOOL ∨ (env s).origType = SymType.TRISTATE))
      && ! deps_met env s σ

/-- `K.TRI_TO_STR`: the dict `{0: "n", 1: "m", 2: "y"}`.  Indexing it
with any other key raises `KeyError` in the source, so the model makes
the lookup partial. -/
def triToStr : Nat → Option String
  | 0 => some "n"
  | 1 => some "m"
  | 2 => some "y"
  | _ => none

/-- Observable side channel of the repair engine: the
`warning: Changing symbol value: <name> <old> -> <new>` audit lines
(carrying the `TRI_TO_STR` renderings the source prints) and the
non-fatal `error: ... Non-boolean and non-tristate dependency` line
(which the source prints without exiting). -/
inductive Event where
  | changed (name : String) (vOld vNew : String)
  | errNonBoolTristate
deriving DecidableEq, Repr

/-- Result of processing one top-level conjunct of a violating symbol's
direct dependency (one iteration of `for dep in deps` in
`try_fix_deps`): either the loop continues (with the updated state, the
symbol added to `check` if any, and emitted log lines), or the whole
program exits via `exit(1)` (`unsupported`, carrying `sym.name`), or an
uncaught `KeyError` escapes (`keyError`). -/
inductive ConjResult where
  | ok (σ : State) (mutTgt : Option Nat) (log : List Event)
  | unsupported (name : String) (σ : State) (log : List Event)
  | keyError (σ : State) (log : List Event)

/-- The state carried by any conjunct result. -/
def ConjResult.state : ConjResult → State
  | ConjResult.ok σ _ _ => σ
  | ConjResult.unsupported _ σ _ => σ
  | ConjResult.keyError σ _ => σ

/-- True on the `keyError` constructor. -/
def ConjResult.isKeyError : ConjResult → Bool
  | ConjResult.keyError _ _ => true
  | _ => false

/-- genconf `try_fix_deps`, body of `for dep in deps` for a single
conjunct `dep` of the violating symbol `s` (lines 127-185):
* a tuple that is an EQ relation with a constant side: look up the
  `TRI_TO_STR` renderings of target and source values (lines 134-135 —
  an uncaught `KeyError` when a value is not a tri-value in `{0,1,2}`),
  then mutate the non-constant side (the right side when both are
  constant) to the constant's `user_value`;
* a tuple that is an NE relation with a constant side: remove the
  constant's `user_value` from `{1, 2}` (line 150 — an uncaught
  `KeyError` when it is not in that set), look up the target's
  `TRI_TO_STR` rendering (line 153 — `KeyError` outside `{0,1,2}`) and
  assign the remaining value;
* any other tuple: print an error naming `s` and `exit(1)`;
* a symbol leaf: skip when `dep_satisfied`; otherwise print an error
  (without exiting) when the leaf is neither bool nor tristate, compute
  the target value (mirror `s` for tristate/tristate, `1` for a
  tristate leaf under a bool parent, else `2`) and, only when it
  strictly exceeds the leaf's current value, look up both `TRI_TO_STR`
  renderings (lines 180-181) and assign it. -/
def processConjunct (env : Env) (s : Nat) (dep : Expr) (σ : State) : ConjResult :=
  match dep with
  | Expr.sym d =>
      if dep_satisfied env σ s d then ConjResult.ok σ none []
      else
        let log0 : List Event :=
          if (env d).origType = SymType.BOOL ∨ (env d).origType = SymType.TRISTATE then []
          else [Event.errNonBoolTristate]
        let value : Nat :=
          if (env d).origType = SymType.TRISTATE ∧ (env s).origType = SymType.TRISTATE then
            user_value env σ s
          else if (env d).origType = SymType.TRISTATE then 1
          else 2
        if user_value env σ d < value then
          match triToStr (user_value env σ d), triToStr value with
          | some a, some b =>
              ConjResult.ok (setValue σ d value) (some d)
                (log0 ++ [Event.changed (env d).name a b])
          | _, _ => ConjResult.keyError σ log0
        else ConjResult.ok σ none log0
  | Expr.rel op s1 s2 =>
      if op = RelOp.EQUAL ∧ ((env s1).isConstant = true ∨ (env s2).isConstant = true) then
        let tgt := if (env s1).isConstant = true then s2 else s1
        let src := if (env s1).isConstant = true then s1 else s2
        match triToStr (user_value env σ tgt), triToStr (user_value env σ src) with
        | some a, some b =>
            ConjResult.ok (setValue σ tgt (user_value env σ src)) (some tgt)
              [Event.changed (env tgt).name a b]
        | _, _ => ConjResult.keyError σ []
      else if op = RelOp.UNEQUAL ∧ ((env s1).isConstant = true ∨ (env s2).isConstant = true) then
        let tgt := if (env s1).isConstant = true then s2 else s1
        let src := if (env s1).isConstant = true then s1 else s2
        let vs := user_value env σ src
        if vs = 1 then
          match triToStr (user_value env σ tgt) with
          | some a =>
              ConjResult.ok (setValue σ tgt 2) (some tgt)
                [Event.changed (env tgt).name a "y"]
          | none => ConjResult.keyError σ []
        else if vs = 2 then
          match triToStr (user_value env σ tgt) with
          | some a =>
              ConjResult.ok (setValue σ tgt 1) (some tgt)
                [Event.changed (env tgt).name a "m"]
          | none => ConjResult.keyError σ []
        else ConjResult.keyError σ []
      else ConjResult.unsupported (env s).name σ []
  | _ => ConjResult.unsupported (env s).name σ []

/-- `check.add(t)`: `check` is a set, so add only when absent (modelled
with insertion order as iteration order). -/
def addCheck (l : List Nat) (t : Nat) : List Nat :=
  if t ∈ l then l else l ++ [t]

/-- Result of part of a repair round: the accumulated `check` set and
state, or the aborting outcomes propagated from a conjunct. -/
inductive RoundResult where
  | ok (check : List Nat) (σ : State) (log : List Event)
  | unsupported (name : String) (σ : State) (log : List Event)
  | keyError (σ : State) (log : List Event)

/-- Fold `processConjunct` over the conjunct list of one violating
symbol (the inner `for dep in deps` loop). -/
def processDeps (env : Env) (s : Nat) :
    List Expr → State → List Nat → List Event → RoundResult
  | [], σ, check, log => RoundResult.ok check σ log
  | d :: ds, σ, check, log =>
      match processConjunct env s d σ with
      | ConjResult.ok σ2 mutTgt log2 =>
          let check2 := match mutTgt with
            | some t => addCheck check t
            | none => check
          processDeps env s ds σ2 check2 (log ++ log2)
      | ConjResult.unsupported n σ2 log2 => RoundResult.unsupported n σ2 (log ++ log2)
      | ConjResult.keyError σ2 log2 => RoundResult.keyError σ2 (log ++ log2)

/-- One repair round (the `for sym in symbols` loop): skip symbols whose
dependencies are met, process the others conjunct by conjunct. -/
def roundGo (env : Env) :
    List Nat → State → List Nat → List Event → RoundResult
  | [], σ, check, log => RoundResult.ok check σ log
  | s :: ss, σ, check, log =>
      if deps_met env s σ then roundGo env ss σ check log
      else
        match processDeps env s (split_expr (env s).directDep) σ check log with
        | RoundResult.ok check2 σ2 log2 => roundGo env ss σ2 check2 log2
        | r => r

/-- Final outcome of a `try_fix_deps` run: normal return (`fixed`),
`exit(1)` on an unsupported conjunct, an uncaught `KeyError`, or fuel
exhaustion (the source's `while` loop has no bound of its own). -/
inductive Outcome where
  | fixed (σ : State) (log : List Event)
  | unsupported (name : String) (σ : State) (log : List Event)
  | keyError (σ : State) (log : List Event)
  | outOfFuel (σ : State) (log : List Event)

/-- genconf `try_fix_deps(symbols)`: the `while symbols:` fixed-point
loop, with explicit fuel bounding the number of rounds. -/
def tryFixDeps (env : Env) : Nat → List Nat → State → List Event → Outcome
  | _, [], σ, log => Outcome.fixed σ log
  | 0, _ :: _, σ, log => Outcome.outOfFuel σ log
  | fuel + 1, s :: ss, σ, log =>
      match roundGo env (s :: ss) σ [] log with
      | RoundResult.ok check σ2 log2 => tryFixDeps env fuel check σ2 log2
      | RoundResult.unsupported n σ2 log2 => Outcome.unsupported n σ2 log2
      | RoundResult.keyError σ2 log2 => Outcome.keyError σ2 log2

/-- True on the `fixed` constructor. -/
def Outcome.isFixed : Outcome → Bool
  | Outcome.fixed _ _ => true
  | _ => false

/-- True on the `unsupported` constructor. -/
def Outcome.isUnsupported : Outcome → Bool
  | Outcome.unsupported _ _ _ => true
  | _ => false

/-- True on the `keyError` constructor. -/
def Outcome.isKeyError : Outcome → Bool
  | Outcome.keyError _ _ => true
  | _ => false

/-- The state carried by any outcome. -/
def Outcome.state : Outcome → State
  | Outcome.fixed σ _ => σ
  | Outcome.unsupported _ σ _ => σ
  | Outcome.keyError σ _ => σ
  | Outcome.outOfFuel σ _ => σ

/-- The log carried by any outcome. -/
def Outcome.log : Outcome → List Event
  | Outcome.fixed _ l => l
  | Outcome.unsupported _ _ l => l
  | Outcome.keyError _ l => l
  | Outcome.outOfFuel _ l => l

/-- Effective user value of a symbol in an outcome's final state. -/
def Outcome.valueAt (env : Env) (o : Outcome) (s : Nat) : Nat :=
  user_value env o.state s

/-! ## Scalar-capable refinement of the relation branch

A merged configuration file assigns string/int-typed options a typed
scalar, not a tri-value (spec section 3), and `sym.user_value` then
holds that scalar.  The tri-valued `State` above cannot express such
assignments, so the error paths they trigger in the EQ/NE branches —
`K.TRI_TO_STR[user_value(tgt)]` with a scalar key — need a state whose
user values may be scalars.  The refinement below re-embeds exactly the
relation part of the loop body (lines 127-164) over such states. -/

/-- A user-assigned value: a tri-value or a string scalar (as assigned
to string/int/hex options by a merged configuration). -/
inductive UVal where
  | tri (n : Nat)
  | str (sv : String)
deriving DecidableEq, Repr

/-- Mutable state whose user assignments may be typed scalars. -/
def StateV := Nat → Option UVal

/-- `set_value` over scalar-capable states. -/
def setValueV (σv : StateV) (s : Nat) (v : UVal) : StateV :=
  fun i => if i = s then some v else σv i

/-- genconf `user_value(sym)` over scalar-capable states: the user
value if set (possibly a scalar), else the resolved tri-value. -/
def user_valueV (env : Env) (σv : StateV) (s : Nat) : UVal :=
  (σv s).getD (UVal.tri (env s).triValue)

/-- `K.TRI_TO_STR[v]` for a possibly-scalar key: the dict is keyed by
`0, 1, 2`, so any other key — any string scalar included — raises
`KeyError`. -/
def triToStrU : UVal → Option String
  | UVal.tri n => triToStr n
  | UVal.str _ => none

/-- Result of one relation conjunct over scalar-capable states. -/
inductive ConjResultV where
  | ok (σv : StateV) (mutTgt : Option Nat) (log : List Event)
  | unsupported (name : String) (σv : StateV) (log : List Event)
  | keyError (σv : StateV) (log : List Event)

/-- True on the `keyError` constructor. -/
def ConjResultV.isKeyError : ConjResultV → Bool
  | ConjResultV.keyError _ _ => true
  | _ => false

/-- The relation part of the loop body (lines 127-164) over
scalar-capable states, mirroring `processConjunct`'s relation case:
EQ with a constant side looks up both `TRI_TO_STR` renderings
(lines 134-135) before mutating; NE with a constant side first removes
the constant's value from `{1, 2}` (line 150), then looks up the
target's rendering (line 153); any other relation exits via
`exit(1)`. -/
def processRelConjunctV (env : Env) (s : Nat) (op : RelOp) (s1 s2 : Nat)
    (σv : StateV) : ConjResultV :=
  if op = RelOp.EQUAL ∧ ((env s1).isConstant = true ∨ (env s2).isConstant = true) then
    let tgt := if (env s1).isConstant = true then s2 else s1
    let src := if (env s1).isConstant = true then s1 else s2
    match triToStrU (user_valueV env σv tgt), triToStrU (user_valueV env σv src) with
    | some a, some b =>
        ConjResultV.ok (setValueV σv tgt (user_valueV env σv src)) (some tgt)
          [Event.changed (env tgt).name a b]
    | _, _ => ConjResultV.keyError σv []
  else if op = RelOp.UNEQUAL ∧ ((env s1).isConstant = true ∨ (env s2).isConstant = true) then
    let tgt := if (env s1).isConstant = true then s2 else s1
    let src := if (env s1).isConstant = true then s1 else s2
    let vs := user_valueV env σv src
    if vs = UVal.tri 1 then
      match triToStrU (user_valueV env σv tgt) with
      | some a =>
          ConjResultV.ok (setValueV σv tgt (UVal.tri 2)) (some tgt)
            [Event.changed (env tgt).name a "y"]
      | none => ConjResultV.keyError σv []
    else if vs = UVal.tri 2 then
      match triToStrU (user_valueV env σv tgt) with
      | some a =>
          ConjResultV.ok (setValueV σv tgt (UVal.tri 1)) (some tgt)
            [Event.changed (env tgt).name a "m"]
      | none => ConjResultV.keyError σv []
    else ConjResultV.keyError σv []
  else ConjResultV.unsupported (env s).name σv []

/-- Embed a tri-valued state into the scalar-capable ones. -/
def liftState (σ : State) : StateV :=
  fun i => (σ i).map UVal.tri

/-- Embed a tri-valued conjunct result into the scalar-capable ones. -/
def liftConj : ConjResult → ConjResultV
  | ConjResult.ok σ m l => ConjResultV.ok (liftState σ) m l
  | ConjResult.unsupported n σ l => ConjResultV.unsupported n (liftState σ) l
  | ConjResult.keyError σ l => ConjResultV.keyError (liftState σ) l

/-! ## Concrete schema instances used by the scenario theorems

In every concrete instance the runtime type equals the declared type
(no tristate demotion), as in a schema with modules enabled.  Id 3 is
always the constant `y`; constants carry no user assignment, and the
resolved tri-value of a non-bool/tristate symbol is `NO` (thus `0` for
the constant string below), as in the underlying library. -/

/-- Build a symbol whose runtime type equals its declared type. -/
def mkSym (name : String) (t : SymType) (c : Bool) (tri : Nat) (sv : String)
    (dd : Expr) : Symbol :=
  { name := name, type := t, origType := t, isConstant := c, triValue := tri,
    strValue := sv, directDep := dd }

/-- Violating bool `S` whose dependency is `T = n` (`T` tristate at
`YES`, `n` the constant `NO`). -/
def env1 : Env := fun i =>
  match i with
  | 0 => mkSym "S" SymType.BOOL false 0 "" (Expr.rel RelOp.EQUAL 1 2)
  | 1 => mkSym "T" SymType.TRISTATE false 0 "" (Expr.sym 3)
  | 2 => mkSym "n" SymType.TRISTATE true 0 "n" (Expr.sym 3)
  | _ => mkSym "y" SymType.TRISTATE true 2 "y" (Expr.sym 3)

/-- `S` requested `YES`, `T` externally set to `YES`. -/
def sigma1 : State := fun i =>
  match i with
  | 0 => some 2
  | 1 => some 2
  | _ => none

/-- Violating bool `S` whose dependency is `m = n` with both sides
fixed constants. -/
def env2 : Env := fun i =>
  match i with
  | 0 => mkSym "S" SymType.BOOL false 0 "" (Expr.rel RelOp.EQUAL 1 2)
  | 1 => mkSym "m" SymType.TRISTATE true 1 "m" (Expr.sym 3)
  | 2 => mkSym "n" SymType.TRISTATE true 0 "n" (Expr.sym 3)
  | _ => mkSym "y" SymType.TRISTATE true 2 "y" (Expr.sym 3)

/-- Only `S` requests a value. -/
def sigma2 : State := fun i =>
  match i with
  | 0 => some 2
  | _ => none

/-- Violating bool `S` whose dependency is the plain string-typed leaf
`D` (neither bool nor tristate). -/
def env3 : Env := fun i =>
  match i with
  | 0 => mkSym "S" SymType.BOOL false 0 "" (Expr.sym 1)
  | 1 => mkSym "D" SymType.STRING false 0 "" (Expr.sym 3)
  | _ => mkSym "y" SymType.TRISTATE true 2 "y" (Expr.sym 3)

/-- `S` requested `YES`, `D` unset. -/
def sigma3 : State := fun i =>
  match i with
  | 0 => some 2
  | _ => none

/-- Violating bool `S` whose dependency is `T != n` (the excluded
constant has tri-value `NO`). -/
def env4 : Env := fun i =>
  match i with
  | 0 => mkSym "S" SymType.BOOL false 0 "" (Expr.rel RelOp.UNEQUAL 1 2)
  | 1 => mkSym "T" SymType.TRISTATE false 0 "" (Expr.sym 3)
  | 2 => mkSym "n" SymType.TRISTATE true 0 "n" (Expr.sym 3)
  | _ => mkSym "y" SymType.TRISTATE true 2 "y" (Expr.sym 3)

/-- `S` requested `YES`, `T` unset. -/
def sigma4 : State := fun i =>
  match i with
  | 0 => some 2
  | _ => none

/-- Violating bool `S` whose dependency is `T = "x"` with a constant
string right-hand side. -/
def env5 : Env := fun i =>
  match i with
  | 0 => mkSym "S" SymType.BOOL false 0 "" (Expr.rel RelOp.EQUAL 1 2)
  | 1 => mkSym "T" SymType.STRING false 0 "" (Expr.sym 3)
  | 2 => mkSym "x" SymType.STRING true 0 "x" (Expr.sym 3)
  | _ => mkSym "y" SymType.TRISTATE true 2 "y" (Expr.sym 3)

/-- `S` requested `YES`, `T` unset. -/
def sigma5 : State := fun i =>
  match i with
  | 0 => some 2
  | _ => none

/-- Scalar-capable state over the `T = "x"` schema: `S` requested
`YES`, the string option `T` assigned the scalar `"hello"` by a merged
configuration file. -/
def sigmaV5 : StateV := fun i =>
  match i with
  | 0 => some (UVal.tri 2)
  | 1 => some (UVal.str "hello")
  | _ => none

/-- Violating bool `S` whose dependency is `T != m` (the excluded
constant has tri-value `MODULE`). -/
def env6 : Env := fun i =>
  match i with
  | 0 => mkSym "S" SymType.BOOL false 0 "" (Expr.rel RelOp.UNEQUAL 1 2)
  | 1 => mkSym "T" SymType.TRISTATE false 0 "" (Expr.sym 3)
  | 2 => mkSym "m" SymType.TRISTATE true 1 "m" (Expr.sym 3)
  | _ => mkSym "y" SymType.TRISTATE true 2 "y" (Expr.sym 3)

/-- `S` requested `YES`, `T` unset. -/
def sigma6 : State := fun i =>
  match i with
  | 0 => some 2
  | _ => none

/-- The two-option cycle: bool `A` depends on leaf `B`, bool `B`
depends on leaf `A`. -/
def env10 : Env := fun i =>
  match i with
  | 0 => mkSym "A" SymType.BOOL false 0 "" (Expr.sym 1)
  | 1 => mkSym "B" SymType.BOOL false 0 "" (Expr.sym 0)
  | _ => mkSym "y" SymType.TRISTATE true 2 "y" (Expr.sym 3)

/-- Both start at `NO`; `A` is externally forced to `YES`. -/
def sigma10 : State := fun i =>
  match i with
  | 0 => some 2
  | _ => none

/-- The everywhere-unset state. -/
def sigmaNone : State := fun _ => none

/-! ## Shared helper lemmas -/

/-- After `set_value` the target's effective user value is the value set. -/
theorem user_value_setValue_self (env : Env) (σ : State) (d v : Nat) :
    user_value env (setValue σ d v) d = v := by
  simp [user_value, setValue]

/-- `set_value` leaves every other symbol's effective user value alone. -/
theorem user_value_setValue_ne (env : Env) (σ : State) {i d : Nat} (v : Nat)
    (h : i ≠ d) : user_value env (setValue σ d v) i = user_value env σ i := by
  simp [user_value, setValue, h]

/-- `set_value` never lowers any effective user value when the value set
strictly exceeds the target's current one. -/
theorem user_value_le_setValue (env : Env) (σ : State) (d v : Nat)
    (h : user_value env σ d < v) (i : Nat) :
    user_value env σ i ≤ user_value env (setValue σ d v) i := by
  by_cases hid : i = d
  · subst hid
    rw [user_value_setValue_self]
    exact le_of_lt h
  · rw [user_value_setValue_ne env σ v hid]

/-- The instrumented evaluator computes the same value as the plain one. -/
theorem expr_user_value_count_fst (env : Env) (e : Expr) (σ : State) :
    (expr_user_value_count env e σ).1 = expr_user_value env e σ := by
  induction e with
  | sym s => rfl
  | and e1 e2 ih1 ih2 =>
      simp only [expr_user_value_count, expr_user_value]
      by_cases h : expr_user_value env e1 σ = 0 <;>
        simp [ih1, ih2, h, apply_ite Prod.fst]
  | or e1 e2 ih1 ih2 =>
      simp only [expr_user_value_count, expr_user_value]
      by_cases h : expr_user_value env e1 σ = 2 <;>
        simp [ih1, ih2, h, apply_ite Prod.fst]
  | not e ih =>
      simp only [expr_user_value_count, expr_user_value]
      simp [ih]
  | rel op s1 s2 => rfl

/-- On a lifted state, effective user values are the lifted tri-values. -/
theorem user_valueV_liftState (env : Env) (σ : State) (s : Nat) :
    user_valueV env (liftState σ) s = UVal.tri (user_value env σ s) := by
  unfold user_valueV liftState user_value
  cases σ s <;> rfl

/-- Setting a tri-value commutes with lifting the state. -/
theorem setValueV_liftState (σ : State) (s v : Nat) :
    setValueV (liftState σ) s (UVal.tri v) = liftState (setValue σ s v) := by
  funext i
  unfold setValueV liftState setValue
  by_cases h : i = s <;> simp [h]

/-- The scalar-capable relation step refines the main embedding: on
states whose user assignments are all tri-values, it computes exactly
the lifted result of `processConjunct` on the relation conjunct. -/
theorem processRelConjunctV_lift (env : Env) (s : Nat) (op : RelOp) (s1 s2 : Nat)
    (σ : State) :
    processRelConjunctV env s op s1 s2 (liftState σ) =
      liftConj (processConjunct env s (Expr.rel op s1 s2) σ) := by
  by_cases hc1 : op = RelOp.EQUAL ∧
      ((env s1).isConstant = true ∨ (env s2).isConstant = true)
  · simp only [processRelConjunctV, processConjunct, hc1, if_true, ite_true,
      user_valueV_liftState, triToStrU]
    rcases hA : triToStr (user_value env σ (if (env s1).isConstant = true then s2 else s1))
        with _ | a <;>
      rcases hB : triToStr (user_value env σ (if (env s1).isConstant = true then s1 else s2))
          with _ | b <;>
        simp [hA, hB, liftConj, setValueV_liftState]
  · by_cases hc2 : op = RelOp.UNEQUAL ∧
        ((env s1).isConstant = true ∨ (env s2).isConstant = true)
    · simp only [processRelConjunctV, processConjunct, hc1, hc2, if_true, ite_true,
        if_false, ite_false, user_valueV_liftState, triToStrU, UVal.tri.injEq]
      by_cases hv1 : user_value env σ (if (env s1).isConstant = true then s1 else s2) = 1
      · rcases hA : triToStr (user_value env σ (if (env s1).isConstant = true then s2 else s1))
            with _ | a <;>
          simp [hv1, hA, liftConj, setValueV_liftState]
      · by_cases hv2 : user_value env σ (if (env s1).isConstant = true then s1 else s2) = 2
        · rcases hA : triToStr (user_value env σ (if (env s1).isConstant = true then s2 else s1))
              with _ | a <;>
            simp [hv1, hv2, hA, liftConj, setValueV_liftState]
        · simp [hv1, hv2, liftConj]
    · simp [processRelConjunctV, processConjunct, hc1, hc2, liftConj]

/-! ## The claims -/

/-- C1, counterexample: on the violating bool `S` with dependency
`T = n` (with `T` at `YES` and `n` the constant `NO`), repair runs to
its fixed point and lowers `T` from `YES` to `NO` — a run in which an
option's tri-value decreases. -/
theorem claim1_repair_can_lower :
    user_value env1 sigma1 1 = 2 ∧
    (tryFixDeps env1 3 [0] sigma1 []).isFixed = true ∧
    Outcome.valueAt env1 (tryFixDeps env1 3 [0] sigma1 []) 1 = 0 := by decide

/-- C1, amended: a mutation performed for a plain leaf conjunct never
lowers any option's effective tri-value (the leaf branch assigns only
when the computed target strictly exceeds the current value); EQ/NE
constant-relation mutations are exempt from this guarantee. -/
theorem claim1_leaf_mutation_monotone (env : Env) (s d : Nat) (σ : State) (i : Nat) :
    user_value env σ i ≤
      user_value env ((processConjunct env s (Expr.sym d) σ).state) i := by
  by_cases h1 : dep_satisfied env σ s d
  · simp [processConjunct, h1, ConjResult.state]
  · by_cases hlt : user_value env σ d <
        (if (env d).origType = SymType.TRISTATE ∧ (env s).origType = SymType.TRISTATE then
          user_value env σ s
        else if (env d).origType = SymType.TRISTATE then 1 else 2)
    · simp only [processConjunct, h1, Bool.false_eq_true, if_false, ite_false,
        hlt, if_true, ite_true]
      split
      · simp only [ConjResult.state]
        exact user_value_le_setValue env σ d _ hlt i
      · simp [ConjResult.state]
    · simp [processConjunct, h1, hlt, ConjResult.state]

/-- C2, counterexample: the violating bool `S` with dependency `m = n`,
both sides fixed constants, is not rejected: repair takes the EQ
mutation path, mutates the right-hand constant from `NO` to `MODULE`
and returns normally instead of aborting with an error. -/
theorem claim2_both_constant_not_rejected :
    (env2 1).isConstant = true ∧ (env2 2).isConstant = true ∧
    (tryFixDeps env2 3 [0] sigma2 []).isUnsupported = false ∧
    (tryFixDeps env2 3 [0] sigma2 []).isFixed = true ∧
    user_value env2 sigma2 2 = 0 ∧
    Outcome.valueAt env2 (tryFixDeps env2 3 [0] sigma2 []) 2 = 1 := by decide

/-- C2, amended: a top-level relational conjunct in which neither side
is a fixed constant (any operator), or whose operator is not EQ/NE
(any constancy), aborts repair immediately with an error identifying
the original violating option and performs no mutation; a
both-constant EQ/NE relation instead takes the mutation path with the
right-hand constant as target. -/
theorem claim2_unsupported_relation_cases (env : Env) (s : Nat) (σ : State)
    (op : RelOp) (s1 s2 : Nat)
    (h : ((env s1).isConstant = false ∧ (env s2).isConstant = false) ∨
         (op ≠ RelOp.EQUAL ∧ op ≠ RelOp.UNEQUAL)) :
    processConjunct env s (Expr.rel op s1 s2) σ =
      ConjResult.unsupported (env s).name σ [] := by
  rcases h with ⟨h1, h2⟩ | ⟨h1, h2⟩ <;> simp [processConjunct, h1, h2]

/-- C2, witness: the concrete ordering relation `T < n` — one constant
side, non-EQ/NE operator, which the source aborts on at lines
162-164 — is reported unsupported, naming the violating option. -/
theorem claim2_unsupported_relation_cases_witness :
    processConjunct env4 0 (Expr.rel RelOp.LESS 1 2) sigma4 =
      ConjResult.unsupported "S" sigma4 [] :=
  claim2_unsupported_relation_cases env4 0 sigma4 RelOp.LESS 1 2
    (Or.inr ⟨by decide, by decide⟩)

/-- C3: on the violating bool `S` whose dependency is the unsatisfied
string-typed leaf `D`, repair emits the non-bool/tristate error but
does not abort: the run returns normally, and the leaf is mutated to
`YES` — the source prints the error without `exit(1)`, unlike the
parallel unsupported-relation branch. -/
theorem claim3_nonbool_leaf_error_continues :
    (env3 1).origType = SymType.STRING ∧
    deps_met env3 0 sigma3 = false ∧
    Event.errNonBoolTristate ∈ (tryFixDeps env3 3 [0] sigma3 []).log ∧
    (tryFixDeps env3 3 [0] sigma3 []).isUnsupported = false ∧
    (tryFixDeps env3 3 [0] sigma3 []).isKeyError = false ∧
    (tryFixDeps env3 3 [0] sigma3 []).isFixed = true ∧
    user_value env3 sigma3 1 = 0 ∧
    Outcome.valueAt env3 (tryFixDeps env3 3 [0] sigma3 []) 1 = 2 := by decide

/-- C4, counterexample: on the violating bool `S` with dependency
`T != n` (the excluded constant's tri-value is `NO`), repair neither
returns Fixed nor aborts as Unsupported: the NE branch's
`set([1, 2]).remove(0)` raises an uncaught `KeyError`. -/
theorem claim4_unhandled_keyerror :
    (tryFixDeps env4 3 [0] sigma4 []).isFixed = false ∧
    (tryFixDeps env4 3 [0] sigma4 []).isUnsupported = false ∧
    (tryFixDeps env4 3 [0] sigma4 []).isKeyError = true := by decide

/-- C4, amended: Fixed and Unsupported are not exhaustive — processing
an EQ or NE constant-relation conjunct can raise an uncaught
`KeyError`.  Over scalar-capable states, an EQ conjunct with a
constant side raises exactly when the `TRI_TO_STR` lookup of the
mutation target's or the constant side's effective user value fails
(i.e. the value is not a tri-value in `{0,1,2}` — e.g. a string-typed
target assigned a scalar by a merged config), and an NE conjunct with
a constant side raises exactly when the constant side's effective
value is not `MODULE` or `YES`, or the target's lookup fails. -/
theorem claim4_relation_keyerror_iff (env : Env) (s : Nat) (σv : StateV) (s1 s2 : Nat)
    (hc : (env s1).isConstant = true ∨ (env s2).isConstant = true) :
    ((processRelConjunctV env s RelOp.EQUAL s1 s2 σv).isKeyError = true ↔
      (triToStrU (user_valueV env σv (if (env s1).isConstant = true then s2 else s1)) = none ∨
       triToStrU (user_valueV env σv (if (env s1).isConstant = true then s1 else s2)) = none)) ∧
    ((processRelConjunctV env s RelOp.UNEQUAL s1 s2 σv).isKeyError = true ↔
      (¬(user_valueV env σv (if (env s1).isConstant = true then s1 else s2) = UVal.tri 1 ∨
         user_valueV env σv (if (env s1).isConstant = true then s1 else s2) = UVal.tri 2) ∨
       triToStrU (user_valueV env σv (if (env s1).isConstant = true then s2 else s1)) = none)) := by
  constructor
  · rcases hA : triToStrU (user_valueV env σv (if (env s1).isConstant = true then s2 else s1))
        with _ | a <;>
      rcases hB : triToStrU (user_valueV env σv (if (env s1).isConstant = true then s1 else s2))
          with _ | b <;>
        simp [processRelConjunctV, hc, hA, hB, ConjResultV.isKeyError]
  · by_cases hv1 : user_valueV env σv (if (env s1).isConstant = true then s1 else s2) = UVal.tri 1
    · rcases hA : triToStrU (user_valueV env σv (if (env s1).isConstant = true then s2 else s1))
          with _ | a <;>
        simp [processRelConjunctV, hc, hv1, hA, ConjResultV.isKeyError]
    · by_cases hv2 : user_valueV env σv (if (env s1).isConstant = true then s1 else s2) = UVal.tri 2
      · rcases hA : triToStrU (user_valueV env σv (if (env s1).isConstant = true then s2 else s1))
            with _ | a <;>
          simp [processRelConjunctV, hc, hv1, hv2, hA, ConjResultV.isKeyError]
      · simp [processRelConjunctV, hc, hv1, hv2, ConjResultV.isKeyError]

/-- C4, witness: on the `T = "x"` schema with the string option `T`
assigned the scalar `"hello"` by a merged configuration, the EQ branch
raises the uncaught `KeyError` of `TRI_TO_STR[user_value(tgt)]`. -/
theorem claim4_relation_keyerror_witness :
    (processRelConjunctV env5 0 RelOp.EQUAL 1 2 sigmaV5).isKeyError = true :=
  ((claim4_relation_keyerror_iff env5 0 sigmaV5 1 2 (by decide)).1).mpr
    (Or.inl (by decide))

/-- C5, counterexample: on the violating `S` with dependency `T = "x"`
(`"x"` a constant string), repair sets `T`'s tri-value to `NO` (the
constant's effective tri-value) and never writes the string scalar:
`T`'s scalar stays `""`, not `"x"`. -/
theorem claim5_string_scalar_not_set :
    (env5 2).isConstant = true ∧ (env5 2).origType = SymType.STRING ∧
    (env5 2).strValue = "x" ∧
    (tryFixDeps env5 3 [0] sigma5 []).isFixed = true ∧
    Outcome.valueAt env5 (tryFixDeps env5 3 [0] sigma5 []) 1 = 0 ∧
    (env5 1).strValue = "" := by decide

/-- C5, amended: for an EQ conjunct with exactly one fixed-constant
side (either orientation), repair sets the non-constant side's
tri-value to the constant's effective user value (`user_value(src)`, a
tri-value — for a string constant that is `NO`, not its string scalar)
and logs the change, whenever the `TRI_TO_STR` audit lookups of target
and constant succeed (otherwise it raises, see C4); the target's
string scalar is never written. -/
theorem claim5_eq_sets_tri_value (env : Env) (s : Nat) (σ : State) (s1 s2 : Nat)
    (vOld vNew : String)
    (h : ((env s1).isConstant = true ∧ (env s2).isConstant = false) ∨
         ((env s1).isConstant = false ∧ (env s2).isConstant = true))
    (hOld : triToStr (user_value env σ (if (env s1).isConstant = true then s2 else s1)) =
      some vOld)
    (hNew : triToStr (user_value env σ (if (env s1).isConstant = true then s1 else s2)) =
      some vNew) :
    processConjunct env s (Expr.rel RelOp.EQUAL s1 s2) σ =
      ConjResult.ok
        (setValue σ (if (env s1).isConstant = true then s2 else s1)
          (user_value env σ (if (env s1).isConstant = true then s1 else s2)))
        (some (if (env s1).isConstant = true then s2 else s1))
        [Event.changed (env (if (env s1).isConstant = true then s2 else s1)).name
          vOld vNew] := by
  rcases h with ⟨h1, h2⟩ | ⟨h1, h2⟩ <;>
    simp only [h1, h2, Bool.false_eq_true, if_true, ite_true, if_false, ite_false]
      at hOld hNew ⊢ <;>
    simp [processConjunct, h1, h2, hOld, hNew]

/-- C5, witness: on the concrete `"x" = T` conjunct — constant on the
left, the orientation of source lines 129-130 — the EQ branch sets `T`
to tri-value `0`. -/
theorem claim5_eq_sets_tri_value_witness :
    processConjunct env5 0 (Expr.rel RelOp.EQUAL 2 1) sigma5 =
      ConjResult.ok (setValue sigma5 1 0) (some 1) [Event.changed "T" "n" "n"] :=
  claim5_eq_sets_tri_value env5 0 sigma5 2 1 "n" "n"
    (Or.inl ⟨by decide, by decide⟩) (by decide) (by decide)

/-- C6, counterexample: for an NE conjunct whose constant has tri-value
`NO`, repair does not choose a remaining value at all: the conjunct
processing raises the uncaught `KeyError`, leaving the state unchanged —
so the claimed behaviour fails for that possible tri-value of the
constant. -/
theorem claim6_excluded_no_keyerror :
    user_value env4 sigma4 2 = 0 ∧ (env4 2).isConstant = true ∧
    processConjunct env4 0 (Expr.rel RelOp.UNEQUAL 1 2) sigma4 =
      ConjResult.keyError sigma4 [] :=
  ⟨by decide, by decide, rfl⟩

/-- C6, amended: for an NE conjunct with exactly one fixed-constant
side (either orientation) whose constant's effective value is `MODULE`
or `YES`, repair sets the non-constant target to the remaining value
of `{MODULE, YES}` distinct from the constant's value (`NO` is never
chosen) and logs the change, whenever the `TRI_TO_STR` audit lookup of
the target succeeds (otherwise it raises, see C4); when the constant's
value is `NO` the branch raises instead. -/
theorem claim6_ne_picks_remaining (env : Env) (s : Nat) (σ : State) (s1 s2 : Nat)
    (vOld : String)
    (h : ((env s1).isConstant = true ∧ (env s2).isConstant = false) ∨
         ((env s1).isConstant = false ∧ (env s2).isConstant = true))
    (h3 : user_value env σ (if (env s1).isConstant = true then s1 else s2) = 1 ∨
          user_value env σ (if (env s1).isConstant = true then s1 else s2) = 2)
    (hOld : triToStr (user_value env σ (if (env s1).isConstant = true then s2 else s1)) =
      some vOld) :
    processConjunct env s (Expr.rel RelOp.UNEQUAL s1 s2) σ =
      ConjResult.ok
        (setValue σ (if (env s1).isConstant = true then s2 else s1)
          (3 - user_value env σ (if (env s1).isConstant = true then s1 else s2)))
        (some (if (env s1).isConstant = true then s2 else s1))
        [Event.changed (env (if (env s1).isConstant = true then s2 else s1)).name vOld
          (if user_value env σ (if (env s1).isConstant = true then s1 else s2) = 1
            then "y" else "m")] := by
  rcases h with ⟨h1, h2⟩ | ⟨h1, h2⟩ <;>
    simp only [h1, h2, Bool.false_eq_true, if_true, ite_true, if_false, ite_false]
      at h3 hOld ⊢ <;>
    rcases h3 with h3 | h3 <;>
      simp [processConjunct, h1, h2, h3, hOld]

/-- C6, witness: on the concrete `m != T` conjunct — constant on the
left, the orientation of source lines 144-145 — the NE branch sets `T`
to `YES`. -/
theorem claim6_ne_picks_remaining_witness :
    processConjunct env6 0 (Expr.rel RelOp.UNEQUAL 2 1) sigma6 =
      ConjResult.ok (setValue sigma6 1 2) (some 1) [Event.changed "T" "n" "y"] :=
  claim6_ne_picks_remaining env6 0 sigma6 2 1 "n"
    (Or.inl ⟨by decide, by decide⟩) (Or.inl (by decide)) (by decide)

/-- C7: for all tri-valued operand subexpressions, `AND` evaluates to
the minimum and `OR` to the maximum of the operands, and the second
operand is not evaluated (no additional node of the instrumented count)
when the first already determines the result: first operand `NO` for
`AND`, first operand `YES` for `OR`. -/
theorem claim7_and_or_min_max_short_circuit (env : Env) (σ : State) (e1 e2 : Expr)
    (_h1 : expr_user_value env e1 σ ≤ 2) (h2 : expr_user_value env e2 σ ≤ 2) :
    expr_user_value env (Expr.and e1 e2) σ =
        min (expr_user_value env e1 σ) (expr_user_value env e2 σ) ∧
    expr_user_value env (Expr.or e1 e2) σ =
        max (expr_user_value env e1 σ) (expr_user_value env e2 σ) ∧
    (expr_user_value env e1 σ = 0 →
      (expr_user_value_count env (Expr.and e1 e2) σ).2 =
        (expr_user_value_count env e1 σ).2 + 1) ∧
    (expr_user_value env e1 σ = 2 →
      (expr_user_value_count env (Expr.or e1 e2) σ).2 =
        (expr_user_value_count env e1 σ).2 + 1) := by
  refine ⟨?_, ?_, ?_, ?_⟩
  · by_cases h : expr_user_value env e1 σ = 0 <;>
      simp [expr_user_value, h]
  · by_cases h : expr_user_value env e1 σ = 2 <;>
      simp [expr_user_value, h, Nat.max_eq_left h2]
  · intro h
    simp [expr_user_value_count, expr_user_value_count_fst, h,
      apply_ite Prod.snd]
  · intro h
    simp [expr_user_value_count, expr_user_value_count_fst, h,
      apply_ite Prod.snd]

/-- C7, witness: the claim instantiated on the cycle schema with the
leaves `B` (value `NO`) and `A` (value `YES`). -/
theorem claim7_short_circuit_witness :
    expr_user_value env10 (Expr.and (Expr.sym 1) (Expr.sym 0)) sigma10 =
        min (expr_user_value env10 (Expr.sym 1) sigma10)
          (expr_user_value env10 (Expr.sym 0) sigma10) ∧
    expr_user_value env10 (Expr.or (Expr.sym 1) (Expr.sym 0)) sigma10 =
        max (expr_user_value env10 (Expr.sym 1) sigma10)
          (expr_user_value env10 (Expr.sym 0) sigma10) ∧
    (expr_user_value env10 (Expr.sym 1) sigma10 = 0 →
      (expr_user_value_count env10 (Expr.and (Expr.sym 1) (Expr.sym 0)) sigma10).2 =
        (expr_user_value_count env10 (Expr.sym 1) sigma10).2 + 1) ∧
    (expr_user_value env10 (Expr.sym 1) sigma10 = 2 →
      (expr_user_value_count env10 (Expr.or (Expr.sym 1) (Expr.sym 0)) sigma10).2 =
        (expr_user_value_count env10 (Expr.sym 1) sigma10).2 + 1) :=
  claim7_and_or_min_max_short_circuit env10 sigma10 (Expr.sym 1) (Expr.sym 0)
    (by decide) (by decide)

/-- C8: whenever an option's effective user value is `NO` (the
minimal/unset state regardless of kind), the dependency-satisfaction
check returns true, whatever the dependency expression evaluates to. -/
theorem claim8_value_no_deps_met (env : Env) (σ : State) (s : Nat)
    (h : user_value env σ s = 0) : deps_met env s σ = true := by
  simp [deps_met, h]

/-- C8, witness: the unset constant `n` of the first schema satisfies
its dependency check. -/
theorem claim8_value_no_deps_met_witness : deps_met env1 2 sigma1 = true :=
  claim8_value_no_deps_met env1 sigma1 2 (by decide)

/-- A round over symbols whose dependencies are all met changes nothing
and schedules nothing. -/
theorem roundGo_all_met (env : Env) (syms : List Nat) (σ : State)
    (check : List Nat) (log : List Event)
    (h : ∀ s ∈ syms, deps_met env s σ = true) :
    roundGo env syms σ check log = RoundResult.ok check σ log := by
  induction syms with
  | nil => rfl
  | cons s ss ih =>
      have hs : deps_met env s σ = true := h s (List.mem_cons_self s ss)
      simp only [roundGo, hs, if_true]
      exact ih fun x hx => h x (List.mem_cons_of_mem s hx)

/-- C9: repair is idempotent at the fixed point: on any violation set
whose members' dependencies are all already satisfied, a run (with any
positive round budget) returns normally after its first round with the
state unchanged — zero mutations — and emits no log line. -/
theorem claim9_fixed_point_idempotent (env : Env) (fuel : Nat) (syms : List Nat)
    (σ : State) (log : List Event)
    (h : ∀ s ∈ syms, deps_met env s σ = true) :
    tryFixDeps env (fuel + 1) syms σ log = Outcome.fixed σ log := by
  cases syms with
  | nil => rfl
  | cons s ss =>
      have hr : roundGo env (s :: ss) σ [] log = RoundResult.ok [] σ log :=
        roundGo_all_met env (s :: ss) σ [] log h
      simp only [tryFixDeps, hr]

/-- C9, witness: running repair on the already-satisfied singleton
violation set `{B}` of the cycle schema (with everything unset) changes
nothing. -/
theorem claim9_fixed_point_idempotent_witness :
    tryFixDeps env10 1 [1] sigmaNone [] = Outcome.fixed sigmaNone [] :=
  claim9_fixed_point_idempotent env10 0 [1] sigmaNone [] (by decide)

/-- C10: on the two-option boolean cycle (`A` depends on leaf `B`, `B`
depends on leaf `A`, both initially `NO`, `A` forced `YES` externally),
the violation set is exactly `{A}` and repair reaches its fixed point
within two rounds, returning normally with both options at `YES`. -/
theorem claim10_two_cycle_converges :
    filter_unmet_deps env10 sigma10 [0, 1] = [0] ∧
    (tryFixDeps env10 2 [0] sigma10 []).isFixed = true ∧
    Outcome.valueAt env10 (tryFixDeps env10 2 [0] sigma10 []) 0 = 2 ∧
    Outcome.valueAt env10 (tryFixDeps env10 2 [0] sigma10 []) 1 = 2 := by decide

end GenConf
